import Mathlib

/-!
# Verification of the DPU selection benchmark (`src/selection/run.py`)

A shallow embedding of the benchmark's core: the Storage Node's
per-connection handler `handle_client`, and the Compute Node's
`send_query_and_get_result` / `run_host_client`.

Modelling conventions:
* Python floats (wall-clock and CPU-time measurements) are modelled as
  exact rationals `ℚ`; the measured time deltas themselves are inputs of
  the model, since they come from the OS clock.
* Result rows fetched from the analytical engine are opaque to the
  benchmark logic (only `len(...)` is ever applied to a row list), so a
  row is modelled as `List Int`.
* External effects (socket receive outcome, query execution outcome,
  directory listing, file contents, pickled bytes) are inputs of the
  model, one constructor per distinct control path of the Python code.
* Python local-variable scoping matters in `handle_client`: names bound
  inside the `try:` block may be unbound when the `finally:` block runs,
  in which case referencing them raises `NameError`.  The model tracks
  this with `Option`-valued bindings.
-/

namespace Selection

/-- One result row fetched from the engine; its cells are never inspected
by the benchmark code (only row counts are used), so cells are `Int`. -/
abbrev Row := List Int

/-! ## Python string primitives (`in`, `find`, `lower`, slicing)

`str.lower` is modelled per-character with `Char.toLower`; the queries and
needles involved ("lineitem", "query6_", ".sql") are ASCII, where the two
agree. -/

/-- `listStartsWith hay needle`: `needle` is a prefix of `hay`. -/
def listStartsWith : List Char → List Char → Bool
  | _, [] => true
  | [], _ :: _ => false
  | a :: as, b :: bs => a == b && listStartsWith as bs

/-- First index `≥ idx` (counting from the start of the original string)
at which `needle` occurs in `hay`; `none` if it does not occur.
Python's `str.find` returns that index, or `-1` for `none`. -/
def pyFindAux (needle : List Char) : List Char → Nat → Option Nat
  | [], idx => if listStartsWith [] needle then some idx else none
  | a :: t, idx =>
    if listStartsWith (a :: t) needle then some idx
    else pyFindAux needle t (idx + 1)

/-- Python `s.find(needle)` (as an `Option`). -/
def pyFind (s needle : String) : Option Nat :=
  pyFindAux needle.data s.data 0

/-- Python `s.find(needle, start)` for `start ≤ s.length` (the only way
the source calls it: `start` is just past a matched occurrence). -/
def pyFindFrom (s needle : String) (start : Nat) : Option Nat :=
  (pyFindAux needle.data (s.data.drop start) 0).map (· + start)

/-- Python `needle in s`. -/
def pyContains (s needle : String) : Bool :=
  (pyFind s needle).isSome

/-- Python `s.lower()` (ASCII fragment). -/
def pyLower (s : String) : String :=
  String.mk (s.data.map Char.toLower)

/-- Python `s[a:b]` for `a ≤ b`. -/
def pySlice (s : String) (a b : Nat) : String :=
  String.mk ((s.data.drop a).take (b - a))

/-- Python `s.startswith(pre)`. -/
def pyStartsWith (s pre : String) : Bool :=
  listStartsWith s.data pre.data

/-- Python `s.endswith(suf)`: `suf` is a suffix of `s`. -/
def pyEndsWith (s suf : String) : Bool :=
  listStartsWith s.data.reverse suf.data.reverse

/-- Python `a <= b` on character lists: lexicographic by code point,
with a proper prefix ordered first. -/
def pyStrLeAux : List Char → List Char → Bool
  | [], _ => true
  | _ :: _, [] => false
  | a :: as, b :: bs => if a = b then pyStrLeAux as bs else decide (a < b)

/-- Python `a <= b` on strings (the comparison `list.sort()` uses). -/
def pyStrLe (a b : String) : Bool :=
  pyStrLeAux a.data b.data

/-! ## Storage Node: `handle_client` (run.py lines 201–285) -/

/-- run.py lines 211–217: extract the query id from an embedded
`query6_<n>.sql` file-name hint, defaulting to `"unknown"`. -/
def extract_query_id (query : String) : String :=
  match pyFind query "query6_" with
  | none => "unknown"
  | some i =>
    let start_idx := i + 7
    match pyFindFrom query ".sql" start_idx with
    | none => "unknown"
    | some end_idx =>
      if start_idx < end_idx then pySlice query start_idx end_idx else "unknown"

/-- run.py lines 223–232: the scanned-rows estimate, computed from the
query text and the configured scale factor before execution. -/
def scanned_rows_estimate (scale_factor : Int) (query : String) : Int :=
  if pyContains (pyLower query) "lineitem" then
    if scale_factor = 1 then 6001215
    else if scale_factor = 10 then 60012150
    else 6001215 * scale_factor
  else 0

/-- The response envelope pickled at run.py lines 241–246. -/
structure StoragePayload where
  rows : List Row
  scanned_rows : Int
  query_time : ℚ
  deriving DecidableEq, Repr

/-- One row of the Storage Node's CSV log (run.py lines 276–283). -/
structure StorageCsvRow where
  queryID : String
  executionTime : ℚ
  rowsReturned : Nat
  scannedRows : Int
  cpuUsage : ℚ
  wallClockTime : ℚ
  deriving DecidableEq, Repr

/-- How one handled connection unfolds, seen from `handle_client`'s
control flow.  `query` is the decoded, stripped request text
(`data.decode("utf-8").strip()`, run.py line 210). -/
inductive ClientScenario where
  /-- `conn.recv` itself raises (run.py line 206). -/
  | recvError
  /-- `conn.recv` returns `b""`; the handler returns early (line 207). -/
  | emptyData
  /-- the received bytes are not valid UTF-8; `decode` raises (line 210). -/
  | decodeError
  /-- `con.execute(query)` raises (line 235). -/
  | execError (query : String)
  /-- execution returned `rows` but pickling/`sendall` raises (246–247). -/
  | sendError (query : String) (rows : List Row)
  /-- the whole `try:` block succeeds: execution returned `rows` in
  `query_time` seconds and the payload was sent (lines 234–248). -/
  | ok (query : String) (rows : List Row) (query_time : ℚ)
  deriving DecidableEq

/-- The decoded query text of a scenario, when receiving and decoding
succeeded with non-empty data. -/
def scenarioQuery : ClientScenario → Option String
  | .execError q => some q
  | .sendError q _ => some q
  | .ok q _ _ => some q
  | _ => none

/-- The server-measured execution duration of a scenario (only the
fully-successful path keeps it; the `except:` branch resets it to 0). -/
def scenarioQueryTime : ClientScenario → ℚ
  | .ok _ _ qt => qt
  | _ => 0

/-- The Python locals of `handle_client` that the `finally:` block's CSV
write references; `none` means the name is unbound there, so referencing
it raises `NameError`. -/
structure HandlerLocals where
  query_id : Option String
  query_time : Option ℚ
  result_data : Option (List Row)
  scanned_rows : Option Int

/-- State of `handle_client`'s locals at the start of the `finally:`
block, together with the response actually delivered to the peer
(run.py lines 205–254).  On the three early failure paths (`recv` error,
empty data, decode error) `query_id` is never assigned: the `"unknown"`
default is set at line 211, after `decode` at line 210.  The `except`
branch (lines 250–254) binds `query_time = 0`, `result_data = []`,
`scanned_rows = 0` but not `query_id`. -/
def tryBlockResult (scale_factor : Int) :
    ClientScenario → HandlerLocals × Option StoragePayload
  | .recvError => (⟨none, some 0, some [], some 0⟩, none)
  | .emptyData => (⟨none, none, none, none⟩, none)
  | .decodeError => (⟨none, some 0, some [], some 0⟩, none)
  | .execError q => (⟨some (extract_query_id q), some 0, some [], some 0⟩, none)
  | .sendError q _ => (⟨some (extract_query_id q), some 0, some [], some 0⟩, none)
  | .ok q rows qt =>
    (⟨some (extract_query_id q), some qt, some rows,
      some (scanned_rows_estimate scale_factor q)⟩,
     some ⟨rows, scanned_rows_estimate scale_factor q, qt⟩)

/-- run.py lines 265–268 (and identically lines 382, 421–422 on the
Compute Node): process CPU-time delta over wall-clock window times
logical CPU count, as a percentage. -/
def cpu_usage_pct (cpu_count : Nat) (user_diff sys_diff wall_diff : ℚ) : ℚ :=
  if 0 < wall_diff then
    (user_diff + sys_diff) / (wall_diff * cpu_count) * 100
  else 0

/-- run.py lines 273–285: the `finally:` block's CSV append.  The
`writerow` call references `query_id`, `query_time`, `result_data` and
`scanned_rows`; if any is unbound a `NameError` is raised inside the
inner `try:`, caught at line 284, and no row is written. -/
def finallyCsvRow (locals : HandlerLocals) (pct wall_diff : ℚ) :
    Option StorageCsvRow :=
  match locals.query_id, locals.query_time, locals.result_data,
      locals.scanned_rows with
  | some qid, some qt, some rd, some sc =>
    some ⟨qid, qt, rd.length, sc, pct, wall_diff⟩
  | _, _, _, _ => none

/-- Externally observable outcome of one call to `handle_client`: the
response delivered to the peer, if any, and the CSV row appended to the
node's result log, if any. -/
structure HandleResult where
  response : Option StoragePayload
  csvRow : Option StorageCsvRow
  deriving DecidableEq, Repr

/-- run.py lines 201–285, `handle_client`.  `user_diff`, `sys_diff` and
`wall_diff` are the process CPU-time and wall-clock deltas measured
between function entry and the `finally:` block. -/
def handle_client (scale_factor : Int) (cpu_count : Nat)
    (user_diff sys_diff wall_diff : ℚ) (scen : ClientScenario) :
    HandleResult :=
  let r := tryBlockResult scale_factor scen
  let pct := cpu_usage_pct cpu_count user_diff sys_diff wall_diff
  ⟨r.2, finallyCsvRow r.1 pct wall_diff⟩

/-! ## Compute Node: `send_query_and_get_result` (run.py lines 290–326) -/

/-- Outcome of one round trip to the Storage Node, as the Compute Node
observes it: either connecting/sending/receiving raised, or some byte
string was read to end-of-stream, with `pickle.loads` on it producing a
payload or raising. -/
inductive NetOutcome where
  /-- connect/send/recv raised before the response was fully read
  (run.py lines 300–312). -/
  | connectError
  /-- `bytes` were read until the peer closed; `parsed` is the result of
  unpickling them (`none` when `pickle.loads` raises, lines 318–326). -/
  | received (bytes : List Nat) (parsed : Option StoragePayload)
  deriving DecidableEq

/-- The tuple returned by `send_query_and_get_result`
(`result_rows, scanned_rows, data_time, data_size, server_query_time`). -/
structure SendResult where
  result_rows : List Row
  scanned_rows : Int
  data_time : ℚ
  data_size : Nat
  server_query_time : ℚ
  deriving DecidableEq, Repr

/-- run.py lines 290–326, `send_query_and_get_result`.  `elapsed` is the
wall-clock delta measured between lines 297 and 314 (around connect,
send and the receive loop); on a transport error the function returns
all zeros before that delta is even computed. -/
def send_query_and_get_result (outcome : NetOutcome) (elapsed : ℚ) :
    SendResult :=
  match outcome with
  | .connectError => ⟨[], 0, 0, 0, 0⟩
  | .received bytes none => ⟨[], 0, elapsed, bytes.length, 0⟩
  | .received bytes (some p) =>
    ⟨p.rows, p.scanned_rows, elapsed, bytes.length, p.query_time⟩

/-! ## Compute Node: `run_host_client` (run.py lines 328–450) -/

/-- One row of the Compute Node's per-query CSV log
(run.py lines 404–413). -/
structure HostCsvRow where
  queryFile : String
  returnedRows : Nat
  scannedRows : Int
  dataTransferTime : ℚ
  dataSize : Nat
  serverQueryTime : ℚ
  cpuUsage : ℚ
  throughput : ℚ
  deriving DecidableEq, Repr

/-- The `metrics_data` dictionary built at run.py lines 436–442 and
returned by `run_host_client` (the AggregateSummary). -/
structure MetricsData where
  ThroughPut : ℚ
  execution_time : ℚ
  cpu_usage : ℚ
  total_scanned_rows : Int
  total_returned_rows : Nat
  deriving DecidableEq, Repr

/-- The running totals of the per-file loop (run.py lines 348–353),
together with the rows appended to the CSV log so far. -/
structure LoopState where
  csvRows : List HostCsvRow
  total_scanned : Int
  total_rows_returned : Nat
  total_data_time : ℚ
  total_data_size : Nat
  total_query_exec_time : ℚ
  executed_count : Nat
  deriving DecidableEq, Repr

/-- A Python exception escaping the modelled function. -/
inductive PyError where
  /-- `FileNotFoundError` from `os.listdir` on a missing directory. -/
  | fileNotFound
  deriving DecidableEq, Repr

/-- The environment `run_host_client` runs in.  Per-file functions are
keyed by the file's name within `query_dir` (the path join with the
fixed directory is injective).  Wall-clock and CPU deltas are inputs as
measured by the OS. -/
structure HostEnv where
  /-- `os.listdir(query_dir)` (line 345); `none` when the directory is
  missing and `listdir` raises `FileNotFoundError`. -/
  listing : Option (List String)
  /-- `os.path.exists` at the top of the loop body (line 359). -/
  fileExists : String → Bool
  /-- the file's contents (line 363, before `.strip()`). -/
  fileContent : String → String
  /-- outcome of the round trip for this file's query (line 371). -/
  net : String → NetOutcome
  /-- the round-trip delta measured inside `send_query_and_get_result`. -/
  dataTime : String → ℚ
  /-- wall-clock delta around the round trip (lines 369, 376). -/
  queryWall : String → ℚ
  /-- process user CPU-time delta over the same window (line 378). -/
  queryUser : String → ℚ
  /-- process system CPU-time delta over the same window (line 379). -/
  querySys : String → ℚ
  /-- wall-clock delta over the whole run (lines 343, 416). -/
  overallWall : ℚ
  /-- process user CPU-time delta over the whole run (line 418). -/
  overallUser : ℚ
  /-- process system CPU-time delta over the whole run (line 419). -/
  overallSys : ℚ
  /-- `psutil.cpu_count(logical=True)` (line 355). -/
  num_cpus : Nat

/-- run.py line 345: the filter of the directory listing,
`f.startswith("query6_") and f.endswith(".sql")`. -/
def matchesCorpus (f : String) : Bool :=
  pyStartsWith f "query6_" && pyEndsWith f ".sql"

/-- run.py lines 345–346: filter the listing, then `query_files.sort()`
(a stable sort by the lexicographic string order `pyStrLe`). -/
def sortedQueryFiles (l : List String) : List String :=
  (l.filter matchesCorpus).mergeSort pyStrLe

/-- The CSV row the loop body appends for one processed query file
(run.py lines 371–413). -/
def hostRowFor (env : HostEnv) (qf : String) : HostCsvRow :=
  let r := send_query_and_get_result (env.net qf) (env.dataTime qf)
  let wall := env.queryWall qf
  let pct := cpu_usage_pct env.num_cpus (env.queryUser qf) (env.querySys qf) wall
  let throughput : ℚ :=
    if 0 < wall ∧ 0 < r.scanned_rows then (r.scanned_rows : ℚ) / wall else 0
  ⟨qf, r.result_rows.length, r.scanned_rows, r.data_time, r.data_size,
    r.server_query_time, pct, throughput⟩

/-- One iteration of the `for qf in query_files:` loop
(run.py lines 357–413): skip the file if it no longer exists
(lines 359–361), otherwise read it, do the round trip, accumulate the
totals and append one CSV row. -/
def processFile (env : HostEnv) (st : LoopState) (qf : String) : LoopState :=
  if env.fileExists qf then
    let r := send_query_and_get_result (env.net qf) (env.dataTime qf)
    { csvRows := st.csvRows ++ [hostRowFor env qf]
      total_scanned := st.total_scanned + r.scanned_rows
      total_rows_returned := st.total_rows_returned + r.result_rows.length
      total_data_time := st.total_data_time + r.data_time
      total_data_size := st.total_data_size + r.data_size
      total_query_exec_time := st.total_query_exec_time + r.server_query_time
      executed_count := st.executed_count + 1 }
  else st

/-- The whole per-file loop, starting from the zero totals
(run.py lines 348–353, 357–413). -/
def runLoop (env : HostEnv) (files : List String) : LoopState :=
  files.foldl (processFile env) ⟨[], 0, 0, 0, 0, 0, 0⟩

/-- Observable result of a completed `run_host_client` call: the data
rows appended to the per-query CSV log (beyond the header written at
lines 333–339) and the returned `metrics_data` summary. -/
structure RunResult where
  csvRows : List HostCsvRow
  metrics : MetricsData
  deriving DecidableEq, Repr

/-- What `run_host_client` produces when `os.listdir` succeeds
(run.py lines 345–450): run the loop over the sorted matching files,
then build the overall metrics (lines 415–442). -/
def hostRunResult (env : HostEnv) (l : List String) : RunResult :=
  let st := runLoop env (sortedQueryFiles l)
  let overall_cpu :=
    cpu_usage_pct env.num_cpus env.overallUser env.overallSys env.overallWall
  let overall_throughput : ℚ :=
    if 0 < env.overallWall ∧ 0 < st.total_scanned then
      (st.total_scanned : ℚ) / env.overallWall
    else 0
  { csvRows := st.csvRows
    metrics :=
      { ThroughPut := overall_throughput
        execution_time := env.overallWall
        cpu_usage := overall_cpu
        total_scanned_rows := st.total_scanned
        total_returned_rows := st.total_rows_returned } }

/-- run.py lines 328–450, `run_host_client`.  The CSV header is written
first (lines 333–339); then `os.listdir(query_dir)` at line 345 either
raises `FileNotFoundError` (no `try:` protects it, so the exception
propagates to the caller) or yields the listing, and the run completes
normally. -/
def run_host_client (env : HostEnv) : Except PyError RunResult :=
  match env.listing with
  | none => Except.error PyError.fileNotFound
  | some l => Except.ok (hostRunResult env l)

/-! ## Concrete environments used by witnesses and counterexamples -/

/-- A directory with two matching query files (listed out of order) and
one non-matching file; the first query's connection fails. -/
def witnessEnvC3 : HostEnv where
  listing := some ["query6_2.sql", "query6_1.sql", "note.txt"]
  fileExists := fun _ => true
  fileContent := fun _ => "SELECT column06 AS revenue FROM lineitem WHERE column04 < 6"
  net := fun f =>
    if f = "query6_1.sql" then NetOutcome.connectError
    else NetOutcome.received [1, 2] (some ⟨[[7]], 12, 1/4⟩)
  dataTime := fun _ => 1/8
  queryWall := fun _ => 2
  queryUser := fun _ => 1
  querySys := fun _ => 0
  overallWall := 4
  overallUser := 1
  overallSys := 1
  num_cpus := 2

/-- A directory with one matching file whose query hits a connection
failure, and one matching file whose query succeeds. -/
def witnessEnvC4 : HostEnv where
  listing := some ["query6_1.sql", "query6_2.sql"]
  fileExists := fun _ => true
  fileContent := fun _ => "SELECT column06 AS revenue FROM lineitem WHERE column04 < 6"
  net := fun f =>
    if f = "query6_1.sql" then NetOutcome.connectError
    else NetOutcome.received [1, 2, 3] (some ⟨[[7], [8]], 6001215, 1/4⟩)
  dataTime := fun _ => 1/8
  queryWall := fun _ => 2
  queryUser := fun _ => 1
  querySys := fun _ => 0
  overallWall := 4
  overallUser := 1
  overallSys := 1
  num_cpus := 2

/-- A directory that exists but holds no file matching the corpus naming
convention; the run itself still takes 2 seconds of wall time and 1
second of CPU time. -/
def envNoMatching : HostEnv where
  listing := some ["readme.txt"]
  fileExists := fun _ => true
  fileContent := fun _ => ""
  net := fun _ => NetOutcome.connectError
  dataTime := fun _ => 0
  queryWall := fun _ => 0
  queryUser := fun _ => 0
  querySys := fun _ => 0
  overallWall := 2
  overallUser := 1
  overallSys := 0
  num_cpus := 1

/-- A missing query directory: `os.listdir` raises. -/
def envMissingDir : HostEnv where
  listing := none
  fileExists := fun _ => false
  fileContent := fun _ => ""
  net := fun _ => NetOutcome.connectError
  dataTime := fun _ => 0
  queryWall := fun _ => 0
  queryUser := fun _ => 0
  querySys := fun _ => 0
  overallWall := 2
  overallUser := 0
  overallSys := 0
  num_cpus := 1

/-- A single matching query file whose query succeeds with a positive
scanned-row count over a positive round-trip time. -/
def witnessEnvC8 : HostEnv where
  listing := some ["query6_1.sql"]
  fileExists := fun _ => true
  fileContent := fun _ => "SELECT column06 AS revenue FROM lineitem WHERE column04 < 6"
  net := fun _ => NetOutcome.received [1, 2] (some ⟨[[7]], 10, 1/4⟩)
  dataTime := fun _ => 1/8
  queryWall := fun _ => 2
  queryUser := fun _ => 1
  querySys := fun _ => 0
  overallWall := 4
  overallUser := 1
  overallSys := 1
  num_cpus := 2

/-! ## General lemmas -/

theorem cpu_usage_pct_bounds (cpu_count : Nat) (u s w : ℚ)
    (hN : 1 ≤ cpu_count) (hus : 0 ≤ u + s) (hsum : u + s ≤ cpu_count * w) :
    0 ≤ cpu_usage_pct cpu_count u s w ∧
      cpu_usage_pct cpu_count u s w ≤ 100 * cpu_count := by
  have hN' : (1 : ℚ) ≤ (cpu_count : ℚ) := by exact_mod_cast hN
  unfold cpu_usage_pct
  by_cases hw : 0 < w
  · rw [if_pos hw]
    have hwN : 0 < w * (cpu_count : ℚ) := mul_pos hw (lt_of_lt_of_le one_pos hN')
    constructor
    · have := div_nonneg hus hwN.le
      nlinarith
    · have h1 : (u + s) / (w * (cpu_count : ℚ)) ≤ 1 :=
        (div_le_one hwN).mpr (by linarith [mul_comm (cpu_count : ℚ) w])
      nlinarith
  · rw [if_neg hw]
    exact ⟨le_refl 0, by nlinarith⟩

/-! ## Claim C1 -/

/-- Claim C1: for every received query whose (decoded, stripped) text
contains the substring "lineitem" case-insensitively, any response the
Storage Node sends reports `scanned_rows = 6001215` at scale factor 1,
`60012150` at scale factor 10, and `6001215 * scale_factor` at any other
scale factor — independently of the rows the query actually returned
(the scenario's `rows` and `query_time` are universally quantified and
the estimate does not mention them). -/
theorem handle_client_lineitem_scanned_rows (scale_factor : Int)
    (cpu_count : Nat) (u s w : ℚ) (scen : ClientScenario) (query : String)
    (hq : scenarioQuery scen = some query)
    (hli : pyContains (pyLower query) "lineitem" = true) :
    ∀ p, (handle_client scale_factor cpu_count u s w scen).response = some p →
      p.scanned_rows =
        if scale_factor = 1 then 6001215
        else if scale_factor = 10 then 60012150
        else 6001215 * scale_factor := by
  cases scen with
  | recvError => simp [scenarioQuery] at hq
  | emptyData => simp [scenarioQuery] at hq
  | decodeError => simp [scenarioQuery] at hq
  | execError q => simp [handle_client, tryBlockResult]
  | sendError q rows => simp [handle_client, tryBlockResult]
  | ok q rows qt =>
    simp only [scenarioQuery, Option.some.injEq] at hq
    subst hq
    intro p hp
    simp only [handle_client, tryBlockResult, Option.some.injEq] at hp
    subst hp
    simp [scanned_rows_estimate, hli]

/-- Witness for C1: a fully successful connection carrying the
benchmark's own query shape (with the table name upper-cased to exercise
case-insensitivity) at scale factor 1. -/
theorem handle_client_lineitem_scanned_rows_witness :
    scenarioQuery (ClientScenario.ok
        "SELECT column06 AS revenue FROM LINEITEM WHERE column04 < 6"
        [[5], [9]] 0) =
      some "SELECT column06 AS revenue FROM LINEITEM WHERE column04 < 6" ∧
    pyContains
      (pyLower "SELECT column06 AS revenue FROM LINEITEM WHERE column04 < 6")
      "lineitem" = true ∧
    ∀ p, (handle_client 1 4 0 0 1 (ClientScenario.ok
        "SELECT column06 AS revenue FROM LINEITEM WHERE column04 < 6"
        [[5], [9]] 0)).response = some p →
      p.scanned_rows =
        if (1 : Int) = 1 then 6001215
        else if (1 : Int) = 10 then 60012150
        else 6001215 * 1 :=
  ⟨rfl, by decide,
    handle_client_lineitem_scanned_rows 1 4 0 0 1 _ _ rfl (by decide)⟩

/-! ## Claim C9 -/

/-- Claim C9: for every received query whose text does not contain
"lineitem" case-insensitively, both the response envelope (when one is
sent) and the CSV metrics record (when one is written) report
`scanned_rows = 0`, for every scale factor and every result-row list. -/
theorem handle_client_no_lineitem_scanned_zero (scale_factor : Int)
    (cpu_count : Nat) (u s w : ℚ) (scen : ClientScenario) (query : String)
    (hq : scenarioQuery scen = some query)
    (hli : pyContains (pyLower query) "lineitem" = false) :
    (∀ p, (handle_client scale_factor cpu_count u s w scen).response = some p →
      p.scanned_rows = 0) ∧
    (∀ row, (handle_client scale_factor cpu_count u s w scen).csvRow = some row →
      row.scannedRows = 0) := by
  cases scen with
  | recvError => simp [scenarioQuery] at hq
  | emptyData => simp [scenarioQuery] at hq
  | decodeError => simp [scenarioQuery] at hq
  | execError q =>
    constructor
    · simp [handle_client, tryBlockResult]
    · intro row hrow
      simp only [handle_client, tryBlockResult, finallyCsvRow,
        Option.some.injEq] at hrow
      subst hrow
      rfl
  | sendError q rows =>
    constructor
    · simp [handle_client, tryBlockResult]
    · intro row hrow
      simp only [handle_client, tryBlockResult, finallyCsvRow,
        Option.some.injEq] at hrow
      subst hrow
      rfl
  | ok q rows qt =>
    simp only [scenarioQuery, Option.some.injEq] at hq
    subst hq
    constructor
    · intro p hp
      simp only [handle_client, tryBlockResult, Option.some.injEq] at hp
      subst hp
      simp [scanned_rows_estimate, hli]
    · intro row hrow
      simp only [handle_client, tryBlockResult, finallyCsvRow,
        Option.some.injEq] at hrow
      subst hrow
      simp [scanned_rows_estimate, hli]

/-- Witness for C9: a successful query that mentions no lineitem table,
at scale factor 10. -/
theorem handle_client_no_lineitem_scanned_zero_witness :
    scenarioQuery (ClientScenario.ok "SELECT * FROM orders" [[1]] 0) =
      some "SELECT * FROM orders" ∧
    pyContains (pyLower "SELECT * FROM orders") "lineitem" = false ∧
    ((∀ p, (handle_client 10 4 0 0 1
        (ClientScenario.ok "SELECT * FROM orders" [[1]] 0)).response = some p →
      p.scanned_rows = 0) ∧
    (∀ row, (handle_client 10 4 0 0 1
        (ClientScenario.ok "SELECT * FROM orders" [[1]] 0)).csvRow = some row →
      row.scannedRows = 0)) :=
  ⟨rfl, by decide,
    handle_client_no_lineitem_scanned_zero 10 4 0 0 1 _ _ rfl (by decide)⟩

/-! ## Claim C2 -/

/-- Claim C2 (code bug): on a connection whose request bytes fail UTF-8
decoding, the error is indeed caught inside the handler (the function
returns normally), but no metrics record is appended at all — the
`finally:` block's `writerow` references `query_id`, which is only bound
at line 211, after `decode` at line 210, so the write raises `NameError`
and the inner `except` at line 284 swallows it.  The claim (and spec)
say a record with zero time/rows/scanned is appended; the `except`
branch at lines 250–254 sets exactly those zero defaults for the write,
which shows the record was intended, making the unbound `query_id` a
slip in the code. -/
theorem handle_client_decode_error_appends_no_record :
    handle_client 1 4 0 0 1 ClientScenario.decodeError =
      { response := none, csvRow := none } := rfl

/-! ## Claim C5 -/

/-- Counterexample for C5: a handled connection on which the peer sends
no data appends no CSV row at all (the handler returns at line 208
before binding `query_id`, so the `finally:` block's write dies on
`NameError` and is swallowed), contradicting "the CSV log gains exactly
one row for every handled connection, including one on which the peer
sends no data". -/
theorem handle_client_empty_data_appends_no_record :
    (handle_client 1 4 0 0 1 ClientScenario.emptyData).csvRow = none := rfl

/-- Claim C5 (amended): a handled connection gains exactly one CSV row
precisely when the request was received and decoded as non-empty text
(whether execution then succeeds or fails at execution, serialization
or send); connections with empty data or receive/decode errors gain no
row.  Every appended row has `ExecutionTime ≥ 0` (given a monotone
clock, i.e. a non-negative measured execution duration) and `CPUUsage`
in `[0, 100*N]` under the hypothesis that the process CPU-time deltas
are non-negative and total at most `N` times the wall-clock window. -/
theorem handle_client_csv_row_bounds (scale_factor : Int) (cpu_count : Nat)
    (u s w : ℚ) (scen : ClientScenario)
    (hN : 1 ≤ cpu_count) (hus : 0 ≤ u + s)
    (hsum : u + s ≤ cpu_count * w)
    (hqt : 0 ≤ scenarioQueryTime scen) :
    (∀ q, scenarioQuery scen = some q →
      ∃ row, (handle_client scale_factor cpu_count u s w scen).csvRow = some row ∧
        0 ≤ row.executionTime ∧
        0 ≤ row.cpuUsage ∧ row.cpuUsage ≤ 100 * cpu_count) ∧
    (scenarioQuery scen = none →
      (handle_client scale_factor cpu_count u s w scen).csvRow = none) := by
  obtain ⟨hlo, hhi⟩ := cpu_usage_pct_bounds cpu_count u s w hN hus hsum
  cases scen with
  | recvError => exact ⟨fun q hq => by simp [scenarioQuery] at hq, fun _ => rfl⟩
  | emptyData => exact ⟨fun q hq => by simp [scenarioQuery] at hq, fun _ => rfl⟩
  | decodeError => exact ⟨fun q hq => by simp [scenarioQuery] at hq, fun _ => rfl⟩
  | execError q =>
    refine ⟨fun q' _ => ⟨_, rfl, le_refl 0, hlo, hhi⟩, fun h => by simp [scenarioQuery] at h⟩
  | sendError q rows =>
    refine ⟨fun q' _ => ⟨_, rfl, le_refl 0, hlo, hhi⟩, fun h => by simp [scenarioQuery] at h⟩
  | ok q rows qt =>
    simp only [scenarioQueryTime] at hqt
    refine ⟨fun q' _ => ⟨_, rfl, hqt, hlo, hhi⟩, fun h => by simp [scenarioQuery] at h⟩

/-- Witness for C5 (amended): a successful connection on a 4-CPU node
with CPU deltas `1/2 + 1/4` over a 1-second window and a `3/10`-second
measured execution. -/
theorem handle_client_csv_row_bounds_witness :
    (1 ≤ 4 ∧ (0 : ℚ) ≤ 1/2 + 1/4 ∧ (1/2 + 1/4 : ℚ) ≤ (4 : Nat) * 1 ∧
      (0 : ℚ) ≤ scenarioQueryTime
        (ClientScenario.ok "q query6_7.sql lineitem" [[1], [2]] (3/10))) ∧
    ((∀ q, scenarioQuery
        (ClientScenario.ok "q query6_7.sql lineitem" [[1], [2]] (3/10)) = some q →
      ∃ row, (handle_client 1 4 (1/2) (1/4) 1
          (ClientScenario.ok "q query6_7.sql lineitem" [[1], [2]] (3/10))).csvRow
          = some row ∧
        0 ≤ row.executionTime ∧
        0 ≤ row.cpuUsage ∧ row.cpuUsage ≤ 100 * 4) ∧
    (scenarioQuery
        (ClientScenario.ok "q query6_7.sql lineitem" [[1], [2]] (3/10)) = none →
      (handle_client 1 4 (1/2) (1/4) 1
          (ClientScenario.ok "q query6_7.sql lineitem" [[1], [2]] (3/10))).csvRow
          = none)) :=
  ⟨⟨by decide, by norm_num, by norm_num, by norm_num [scenarioQueryTime]⟩,
    handle_client_csv_row_bounds 1 4 (1/2) (1/4) 1 _ (by decide)
      (by norm_num) (by norm_num) (by norm_num [scenarioQueryTime])⟩

/-! ## Lemmas about the Compute Node loop -/

theorem foldl_processFile_csvRows (env : HostEnv) :
    ∀ (files : List String) (st : LoopState),
      (files.foldl (processFile env) st).csvRows
        = st.csvRows ++ (files.filter env.fileExists).map (hostRowFor env) := by
  intro files
  induction files with
  | nil => intro st; simp
  | cons f fs ih =>
    intro st
    by_cases h : env.fileExists f
    · simp only [List.foldl_cons, List.filter_cons, h, if_pos, processFile, ih,
        List.map_cons, List.append_assoc, List.singleton_append]
    · simp only [List.foldl_cons, List.filter_cons, h, Bool.false_eq_true,
        if_neg, processFile, ih, if_false]

theorem runLoop_csvRows (env : HostEnv) (files : List String) :
    (runLoop env files).csvRows
      = (files.filter env.fileExists).map (hostRowFor env) := by
  simpa [runLoop] using foldl_processFile_csvRows env files ⟨[], 0, 0, 0, 0, 0, 0⟩

theorem pyStrLeAux_total (as bs : List Char) :
    (pyStrLeAux as bs || pyStrLeAux bs as) = true := by
  induction as generalizing bs with
  | nil => simp [pyStrLeAux]
  | cons a as ih =>
    cases bs with
    | nil => simp [pyStrLeAux]
    | cons b bs =>
      by_cases h : a = b
      · subst h
        simpa [pyStrLeAux] using ih bs
      · have h' : ¬ b = a := fun e => h e.symm
        simp only [pyStrLeAux, if_neg h, if_neg h', Bool.or_eq_true,
          decide_eq_true_eq]
        exact lt_or_gt_of_ne h

theorem pyStrLeAux_trans (as bs cs : List Char)
    (hab : pyStrLeAux as bs = true) (hbc : pyStrLeAux bs cs = true) :
    pyStrLeAux as cs = true := by
  induction as generalizing bs cs with
  | nil => simp [pyStrLeAux]
  | cons a as ih =>
    cases bs with
    | nil => simp [pyStrLeAux] at hab
    | cons b bs =>
      cases cs with
      | nil => simp [pyStrLeAux] at hbc
      | cons c cs =>
        by_cases hab' : a = b <;> by_cases hbc' : b = c
        · subst hab'; subst hbc'
          simp only [pyStrLeAux, if_pos rfl] at hab hbc ⊢
          exact ih bs cs hab hbc
        · subst hab'
          simp only [pyStrLeAux, if_pos rfl, if_neg hbc'] at hbc ⊢
          simpa [hbc'] using hbc
        · subst hbc'
          simp only [pyStrLeAux, if_pos rfl, if_neg hab'] at hab ⊢
          simpa [hab'] using hab
        · simp only [pyStrLeAux, if_neg hab', if_neg hbc',
            decide_eq_true_eq] at hab hbc
          have hac : a < c := lt_trans hab hbc
          have hne : ¬ a = c := fun e => absurd (e ▸ hab) (asymm hbc)
          simp [pyStrLeAux, if_neg hne, hac]

theorem sortedQueryFiles_pairwise (l : List String) :
    (sortedQueryFiles l).Pairwise (fun a b => pyStrLe a b = true) :=
  @List.sorted_mergeSort String pyStrLe
    (fun a b c hab hbc => pyStrLeAux_trans a.data b.data c.data hab hbc)
    (fun a b => pyStrLeAux_total a.data b.data)
    (l.filter matchesCorpus)

theorem sortedQueryFiles_perm (l : List String) :
    (sortedQueryFiles l).Perm (l.filter matchesCorpus) :=
  List.mergeSort_perm (l.filter matchesCorpus) pyStrLe

theorem hostRunResult_csvRows_of_all_exist (env : HostEnv) (l : List String)
    (hex : ∀ f ∈ l.filter matchesCorpus, env.fileExists f = true) :
    (hostRunResult env l).csvRows
      = (sortedQueryFiles l).map (hostRowFor env) := by
  have hex' : ∀ f ∈ sortedQueryFiles l, env.fileExists f = true := fun f hf =>
    hex f ((sortedQueryFiles_perm l).mem_iff.mp hf)
  have hfilter : (sortedQueryFiles l).filter env.fileExists = sortedQueryFiles l :=
    List.filter_eq_self.mpr hex'
  show (runLoop env (sortedQueryFiles l)).csvRows = _
  rw [runLoop_csvRows, hfilter]

theorem hostRunResult_queryFiles_of_all_exist (env : HostEnv) (l : List String)
    (hex : ∀ f ∈ l.filter matchesCorpus, env.fileExists f = true) :
    (hostRunResult env l).csvRows.map HostCsvRow.queryFile = sortedQueryFiles l := by
  rw [hostRunResult_csvRows_of_all_exist env l hex, List.map_map]
  have : ∀ a ∈ sortedQueryFiles l,
      (HostCsvRow.queryFile ∘ hostRowFor env) a = id a := fun a _ => rfl
  rw [List.map_congr_left this, List.map_id]

/-! ## Claim C3 -/

/-- Claim C3: when the query directory's listing is available and every
matching file exists, the Compute Node processes the files whose names
start with "query6_" and end with ".sql" in lexicographic order, and
appends exactly one per-query CSV row for each such file — whatever the
per-query network outcomes are (connection failures included, since the
environment is universally quantified). -/
theorem run_host_client_one_row_per_matching_file (env : HostEnv)
    (l : List String) (hl : env.listing = some l)
    (hex : ∀ f ∈ l.filter matchesCorpus, env.fileExists f = true) :
    ∃ r, run_host_client env = Except.ok r ∧
      (r.csvRows.map HostCsvRow.queryFile).Pairwise (fun a b => pyStrLe a b = true) ∧
      (r.csvRows.map HostCsvRow.queryFile).Perm (l.filter matchesCorpus) ∧
      r.csvRows.length = (l.filter matchesCorpus).length := by
  refine ⟨hostRunResult env l, by simp [run_host_client, hl], ?_, ?_, ?_⟩
  · rw [hostRunResult_queryFiles_of_all_exist env l hex]
    exact sortedQueryFiles_pairwise l
  · rw [hostRunResult_queryFiles_of_all_exist env l hex]
    exact sortedQueryFiles_perm l
  · have := congrArg List.length (hostRunResult_queryFiles_of_all_exist env l hex)
    rw [List.length_map] at this
    rw [this]
    exact (sortedQueryFiles_perm l).length_eq

/-- Witness for C3: a listing holding two matching files (out of
lexicographic order) and a non-matching one, where one of the two
queries fails with a connection error. -/
theorem run_host_client_one_row_per_matching_file_witness :
    witnessEnvC3.listing = some ["query6_2.sql", "query6_1.sql", "note.txt"] ∧
    (∀ f ∈ ["query6_2.sql", "query6_1.sql", "note.txt"].filter matchesCorpus,
      witnessEnvC3.fileExists f = true) ∧
    ∃ r, run_host_client witnessEnvC3 = Except.ok r ∧
      (r.csvRows.map HostCsvRow.queryFile).Pairwise (fun a b => pyStrLe a b = true) ∧
      (r.csvRows.map HostCsvRow.queryFile).Perm
        (["query6_2.sql", "query6_1.sql", "note.txt"].filter matchesCorpus) ∧
      r.csvRows.length =
        (["query6_2.sql", "query6_1.sql", "note.txt"].filter matchesCorpus).length :=
  ⟨rfl, fun _ _ => rfl,
    run_host_client_one_row_per_matching_file witnessEnvC3 _ rfl (fun _ _ => rfl)⟩

/-! ## Claim C4 -/

/-- Claim C4: when the connection for one query file fails (server
unreachable or a transport error before the response is read),
`send_query_and_get_result` returns the all-zero tuple, so the CSV row
recorded for that file has 0 returned rows, 0 scanned rows and 0 server
execution time; no exception escapes `run_host_client` (it returns
`Except.ok`), and every other matching file still gets its row (the row
count equals the matching-file count). -/
theorem run_host_client_connect_error_zero_row (env : HostEnv)
    (l : List String) (qf : String) (hl : env.listing = some l)
    (hex : ∀ f ∈ l.filter matchesCorpus, env.fileExists f = true)
    (hqf : qf ∈ l.filter matchesCorpus)
    (hnet : env.net qf = NetOutcome.connectError) :
    ∃ r, run_host_client env = Except.ok r ∧
      (∃ row ∈ r.csvRows, row.queryFile = qf ∧ row.returnedRows = 0 ∧
        row.scannedRows = 0 ∧ row.serverQueryTime = 0) ∧
      r.csvRows.length = (l.filter matchesCorpus).length := by
  refine ⟨hostRunResult env l, by simp [run_host_client, hl], ?_, ?_⟩
  · refine ⟨hostRowFor env qf, ?_, rfl, ?_⟩
    · rw [hostRunResult_csvRows_of_all_exist env l hex]
      exact List.mem_map_of_mem (hostRowFor env)
        ((sortedQueryFiles_perm l).mem_iff.mpr hqf)
    · simp [hostRowFor, hnet, send_query_and_get_result]
  · have := congrArg List.length (hostRunResult_queryFiles_of_all_exist env l hex)
    rw [List.length_map] at this
    rw [this]
    exact (sortedQueryFiles_perm l).length_eq

/-- Witness for C4: two matching files where the first query's
connection fails and the second succeeds. -/
theorem run_host_client_connect_error_zero_row_witness :
    witnessEnvC4.listing = some ["query6_1.sql", "query6_2.sql"] ∧
    "query6_1.sql" ∈ ["query6_1.sql", "query6_2.sql"].filter matchesCorpus ∧
    witnessEnvC4.net "query6_1.sql" = NetOutcome.connectError ∧
    ∃ r, run_host_client witnessEnvC4 = Except.ok r ∧
      (∃ row ∈ r.csvRows, row.queryFile = "query6_1.sql" ∧
        row.returnedRows = 0 ∧ row.scannedRows = 0 ∧ row.serverQueryTime = 0) ∧
      r.csvRows.length =
        (["query6_1.sql", "query6_2.sql"].filter matchesCorpus).length :=
  ⟨rfl, by decide, rfl,
    run_host_client_connect_error_zero_row witnessEnvC4 _ _ rfl
      (fun _ _ => rfl) (by decide) rfl⟩

/-! ## Claim C6 -/

/-- Counterexample for C6: with an existing directory that holds no
matching query file but a run that takes 2 seconds of wall time at 50%
CPU, `run_host_client` writes zero CSV data rows but returns a summary
whose `execution_time` is 2 and whose `cpu_usage` is 50 — not the
all-zero summary the claim states. -/
theorem run_host_client_empty_corpus_summary_not_all_zero :
    run_host_client envNoMatching = Except.ok
      { csvRows := []
        metrics := { ThroughPut := 0, execution_time := 2, cpu_usage := 50,
                     total_scanned_rows := 0, total_returned_rows := 0 } } ∧
    run_host_client envNoMatching ≠ Except.ok
      { csvRows := []
        metrics := { ThroughPut := 0, execution_time := 0, cpu_usage := 0,
                     total_scanned_rows := 0, total_returned_rows := 0 } } := by
  have hm : cpu_usage_pct 1 1 0 2 = 50 := by norm_num [cpu_usage_pct]
  have hfilter : List.filter matchesCorpus ["readme.txt"] = [] := rfl
  have hsorted : sortedQueryFiles ["readme.txt"] = [] := by
    unfold sortedQueryFiles
    rw [hfilter, List.mergeSort_nil]
  have hres : hostRunResult envNoMatching ["readme.txt"] =
      { csvRows := []
        metrics := { ThroughPut := 0, execution_time := 2,
                     cpu_usage := cpu_usage_pct 1 1 0 2,
                     total_scanned_rows := 0, total_returned_rows := 0 } } := by
    unfold hostRunResult
    rw [hsorted]
    rfl
  have h : run_host_client envNoMatching = Except.ok
      { csvRows := []
        metrics := { ThroughPut := 0, execution_time := 2, cpu_usage := 50,
                     total_scanned_rows := 0, total_returned_rows := 0 } } := by
    rw [show run_host_client envNoMatching
        = Except.ok (hostRunResult envNoMatching ["readme.txt"]) from rfl,
      hres, hm]
  refine ⟨h, ?_⟩
  rw [h]
  intro hcontra
  simp only [Except.ok.injEq, RunResult.mk.injEq, MetricsData.mk.injEq] at hcontra
  norm_num at hcontra

/-- Claim C6 (amended): if the query directory exists but holds no file
matching the corpus convention, the run writes zero data rows to its
CSV log and returns a summary with `ThroughPut = 0`,
`total_scanned_rows = 0` and `total_returned_rows = 0`; but
`execution_time` is the measured overall wall time of the run and
`cpu_usage` the CPU percentage derived over that window, neither of
which is forced to zero. -/
theorem run_host_client_no_matching_files (env : HostEnv) (l : List String)
    (hl : env.listing = some l)
    (hempty : l.filter matchesCorpus = []) :
    run_host_client env = Except.ok
      { csvRows := []
        metrics :=
          { ThroughPut := 0
            execution_time := env.overallWall
            cpu_usage := cpu_usage_pct env.num_cpus env.overallUser
              env.overallSys env.overallWall
            total_scanned_rows := 0
            total_returned_rows := 0 } } := by
  simp only [run_host_client, hl, hostRunResult, sortedQueryFiles, hempty,
    List.mergeSort_nil, runLoop, List.foldl_nil]
  simp

/-- Witness for C6 (amended): the concrete no-matching-file directory. -/
theorem run_host_client_no_matching_files_witness :
    envNoMatching.listing = some ["readme.txt"] ∧
    ["readme.txt"].filter matchesCorpus = [] ∧
    run_host_client envNoMatching = Except.ok
      { csvRows := []
        metrics :=
          { ThroughPut := 0
            execution_time := envNoMatching.overallWall
            cpu_usage := cpu_usage_pct envNoMatching.num_cpus
              envNoMatching.overallUser envNoMatching.overallSys
              envNoMatching.overallWall
            total_scanned_rows := 0
            total_returned_rows := 0 } } :=
  ⟨rfl, by decide,
    run_host_client_no_matching_files envNoMatching _ rfl (by decide)⟩

/-! ## Claim C7 -/

/-- Counterexample for C7: on a missing query directory,
`run_host_client` does not return any summary: `os.listdir` raises
`FileNotFoundError` with no surrounding `try:`, so the exception
propagates to the caller, contrary to the claim that the error is
logged and an empty/zero summary is returned. -/
theorem run_host_client_missing_dir_not_ok :
    run_host_client envMissingDir = Except.error PyError.fileNotFound ∧
    (run_host_client envMissingDir).isOk = false :=
  ⟨rfl, rfl⟩

/-- Claim C7 (amended): if the query directory is missing,
`os.listdir` raises and the exception propagates out of
`run_host_client` (nothing catches it); no summary is returned. -/
theorem run_host_client_missing_dir_raises (env : HostEnv)
    (hl : env.listing = none) :
    run_host_client env = Except.error PyError.fileNotFound := by
  simp [run_host_client, hl]

/-- Witness for C7 (amended): the concrete missing-directory
environment. -/
theorem run_host_client_missing_dir_raises_witness :
    envMissingDir.listing = none ∧
    run_host_client envMissingDir = Except.error PyError.fileNotFound :=
  ⟨rfl, run_host_client_missing_dir_raises envMissingDir rfl⟩

/-! ## Claim C8 -/

/-- Claim C8: every recorded per-query throughput equals scanned-rows
divided by the round-trip wall time when both are strictly positive and
0 otherwise, and the summary's overall throughput follows the same rule
applied to the total scanned rows and the overall wall time. -/
theorem run_host_client_throughput_rule (env : HostEnv) (l : List String)
    (hl : env.listing = some l) :
    ∃ r, run_host_client env = Except.ok r ∧
      (∀ row ∈ r.csvRows,
        row.throughput =
          if 0 < env.queryWall row.queryFile ∧ 0 < row.scannedRows then
            (row.scannedRows : ℚ) / env.queryWall row.queryFile
          else 0) ∧
      r.metrics.ThroughPut =
        (if 0 < r.metrics.execution_time ∧ 0 < r.metrics.total_scanned_rows then
          (r.metrics.total_scanned_rows : ℚ) / r.metrics.execution_time
        else 0) := by
  refine ⟨hostRunResult env l, by simp [run_host_client, hl], ?_, rfl⟩
  intro row hrow
  have hrows : (hostRunResult env l).csvRows
      = ((sortedQueryFiles l).filter env.fileExists).map (hostRowFor env) := by
    show (runLoop env (sortedQueryFiles l)).csvRows = _
    exact runLoop_csvRows env (sortedQueryFiles l)
  rw [hrows] at hrow
  obtain ⟨qf, -, rfl⟩ := List.mem_map.mp hrow
  rfl

/-- Witness for C8: a single matching query file answered with 10
scanned rows over a 2-second round trip. -/
theorem run_host_client_throughput_rule_witness :
    witnessEnvC8.listing = some ["query6_1.sql"] ∧
    ∃ r, run_host_client witnessEnvC8 = Except.ok r ∧
      (∀ row ∈ r.csvRows,
        row.throughput =
          if 0 < witnessEnvC8.queryWall row.queryFile ∧ 0 < row.scannedRows then
            (row.scannedRows : ℚ) / witnessEnvC8.queryWall row.queryFile
          else 0) ∧
      r.metrics.ThroughPut =
        (if 0 < r.metrics.execution_time ∧ 0 < r.metrics.total_scanned_rows then
          (r.metrics.total_scanned_rows : ℚ) / r.metrics.execution_time
        else 0) :=
  ⟨rfl, run_host_client_throughput_rule witnessEnvC8 _ rfl⟩

/-! ## Claim C10 -/

/-- Claim C10: when the full response bytes are received but fail to
deserialize, the per-query result zeroes the rows, scanned count and
server time but keeps the measured data-transfer time and the received
data size (positive whenever any data was received) — whereas a
connection failure zeroes the data-transfer time and data size too. -/
theorem send_query_unpickle_failure_keeps_transfer_metrics
    (bytes : List Nat) (elapsed : ℚ) (hb : bytes ≠ []) :
    send_query_and_get_result (NetOutcome.received bytes none) elapsed
      = ⟨[], 0, elapsed, bytes.length, 0⟩ ∧
    0 < bytes.length ∧
    send_query_and_get_result NetOutcome.connectError elapsed
      = ⟨[], 0, 0, 0, 0⟩ :=
  ⟨rfl, List.length_pos.mpr hb, rfl⟩

/-- Witness for C10: three received bytes that fail to unpickle, with a
measured round trip of 5/2 seconds. -/
theorem send_query_unpickle_failure_keeps_transfer_metrics_witness :
    ([1, 2, 3] : List Nat) ≠ [] ∧
    (send_query_and_get_result (NetOutcome.received [1, 2, 3] none) (5/2)
      = ⟨[], 0, 5/2, ([1, 2, 3] : List Nat).length, 0⟩ ∧
    0 < ([1, 2, 3] : List Nat).length ∧
    send_query_and_get_result NetOutcome.connectError (5/2)
      = ⟨[], 0, 0, 0, 0⟩) :=
  ⟨by decide,
    send_query_unpickle_failure_keeps_transfer_metrics [1, 2, 3] (5/2)
      (by decide)⟩

end Selection
